import Mathlib

/-!
Shallow embedding of the todo data-access layer of the fasthtml_todo
repository (src/models.py, class TodoDatabase, and the create route of
src/routes/todos.py).

Modelling conventions:
* The SQLite table of Todo rows is a `List Todo` kept in storage (rowid /
  insertion) order, which is how fastlite returns rows when no ORDER BY is
  issued.  The autoincrement primary key is tracked by `nextId`.
* `datetime.now().isoformat()` timestamps are modelled as natural numbers
  passed explicitly to each operation that reads the clock; ISO-format
  strings compare chronologically, so `Nat` order is faithful.
* Python strings are modelled as `List Char` so whitespace stripping is a
  computable structural function; `pyStrip` is Python's `str.strip()`.
* Python `Optional` parameters meaning "field not supplied" become
  `Option` parameters; fastlite `get` on a missing primary key and all
  storage exceptions surface as the `none`/failure branch the Python code
  converts them to.
* Booleans stored as SQLite integers (`int(completed)`) are modelled as
  `Bool` directly; equality against the stored value is unchanged.
-/

/-- A Python string value, as a list of characters. -/
abbrev PyStr := List Char

/-- Python `str.strip()`: remove leading and trailing whitespace. -/
def pyStrip (s : PyStr) : PyStr :=
  ((s.dropWhile Char.isWhitespace).reverse.dropWhile Char.isWhitespace).reverse

/-- One row of the todo table (dataclass `Todo` in src/models.py). -/
structure Todo where
  id : Nat
  user_id : Nat
  title : PyStr
  description : PyStr
  completed : Bool
  priority : PyStr
  due_date : Option PyStr
  created_at : Nat
  updated_at : Nat
deriving Repr, DecidableEq

/-- State of the backing store: todo rows in storage order plus the next
primary key the autoincrement column will assign. -/
structure TodoDatabase where
  todos : List Todo
  nextId : Nat
deriving Repr, DecidableEq

/-- Primary-key lookup, `self.todos.get(todo_id)` (absence as `none`). -/
def dbGet (db : TodoDatabase) (todo_id : Nat) : Option Todo :=
  db.todos.find? (fun t => t.id == todo_id)

/-- Primary-key row replacement, `self.todos.update(updated_todo)`. -/
def dbUpdate (db : TodoDatabase) (t : Todo) : TodoDatabase :=
  { db with todos := db.todos.map (fun x => if x.id == t.id then t else x) }

/-- Primary-key row removal, `self.todos.delete(todo_id)`. -/
def dbDelete (db : TodoDatabase) (todo_id : Nat) : TodoDatabase :=
  { db with todos := db.todos.filter (fun t => t.id != todo_id) }

/-- `TodoDatabase.create_todo`: strips the title, stores the stripped
description (empty input stays empty), sets `completed = False` and both
timestamps to now, and inserts with the next primary key.  No title
validation happens at this layer. -/
def create_todo (db : TodoDatabase) (now : Nat) (user_id : Nat)
    (title description priority : PyStr) (due_date : Option PyStr) :
    TodoDatabase × Option Todo :=
  let todo : Todo :=
    { id := db.nextId
      user_id := user_id
      title := pyStrip title
      description := if description.isEmpty then [] else pyStrip description
      completed := false
      priority := priority
      due_date := due_date
      created_at := now
      updated_at := now }
  ({ todos := db.todos ++ [todo], nextId := db.nextId + 1 }, some todo)

/-- `TodoDatabase.get_todos_by_user`: a WHERE query on `user_id` (and on
`completed` when the filter is supplied), followed by the code's explicit
second ownership filter over the returned rows. -/
def get_todos_by_user (db : TodoDatabase) (user_id : Nat)
    (completed : Option Bool) : List Todo :=
  let todos : List Todo :=
    match completed with
    | some c => db.todos.filter (fun (t : Todo) => t.user_id == user_id && t.completed == c)
    | none => db.todos.filter (fun (t : Todo) => t.user_id == user_id)
  todos.filter (fun t => t.user_id == user_id)

/-- `TodoDatabase.get_todo_by_id`: primary-key fetch, then the ownership
check that converts an owner mismatch into the same `none` as absence. -/
def get_todo_by_id (db : TodoDatabase) (todo_id user_id : Nat) : Option Todo :=
  match dbGet db todo_id with
  | none => none
  | some todo => if todo.user_id == user_id then some todo else none

/-- The row `TodoDatabase.update_todo` writes back: supplied fields
replace the current ones, omitted fields are preserved, `user_id` and
`created_at` are always preserved, `updated_at` is set to now. -/
def mkUpdated (current : Todo) (now todo_id : Nat)
    (title description : Option PyStr) (completed : Option Bool)
    (priority : Option PyStr) (due_date : Option PyStr) : Todo :=
  { id := todo_id
    user_id := current.user_id
    title := title.getD current.title
    description := description.getD current.description
    completed := completed.getD current.completed
    priority := priority.getD current.priority
    due_date := match due_date with
      | some d => some d
      | none => current.due_date
    created_at := current.created_at
    updated_at := now }

/-- `TodoDatabase.update_todo`: fetches the current row by primary key
(failing if absent), builds the merged row and writes it back.  The
`user_id` argument is accepted but never consulted. -/
def update_todo (db : TodoDatabase) (now : Nat) (todo_id user_id : Nat)
    (title description : Option PyStr) (completed : Option Bool)
    (priority : Option PyStr) (due_date : Option PyStr) :
    TodoDatabase × Bool :=
  match dbGet db todo_id with
  | none => (db, false)
  | some current =>
      (dbUpdate db (mkUpdated current now todo_id title description completed priority due_date), true)

/-- `TodoDatabase.update_todo_secure`: ownership-checked wrapper that
first runs `get_todo_by_id` and only then delegates to `update_todo`. -/
def update_todo_secure (db : TodoDatabase) (now : Nat) (todo_id user_id : Nat)
    (title description : Option PyStr) (completed : Option Bool)
    (priority : Option PyStr) (due_date : Option PyStr) :
    TodoDatabase × Bool :=
  match get_todo_by_id db todo_id user_id with
  | none => (db, false)
  | some _ =>
      update_todo db now todo_id user_id title description completed priority due_date

/-- `TodoDatabase.toggle_todo_completion`: ownership-checked read of the
current row, then a secure update setting `completed` to its negation. -/
def toggle_todo_completion (db : TodoDatabase) (now : Nat)
    (todo_id user_id : Nat) : TodoDatabase × Bool :=
  match get_todo_by_id db todo_id user_id with
  | none => (db, false)
  | some todo =>
      update_todo_secure db now todo_id user_id none none (some (!todo.completed)) none none

/-- Result record of `TodoDatabase.get_user_stats`. -/
structure UserStats where
  total : Nat
  completed : Nat
  pending : Nat
  completion_rate : ℚ
deriving Repr, DecidableEq

/-- `TodoDatabase.get_user_stats`: computed from `get_todos_by_user`; the
completion rate special-cases an empty total to 0. -/
def get_user_stats (db : TodoDatabase) (user_id : Nat) : UserStats :=
  let todos := get_todos_by_user db user_id none
  let total := todos.length
  let completed := todos.countP (fun t => t.completed)
  { total := total
    completed := completed
    pending := total - completed
    completion_rate := if total > 0 then (completed : ℚ) / (total : ℚ) else 0 }

/-- `TodoDatabase.delete_user_todos`: queries all of the user's rows and
deletes them one by one; it counts the deletions internally but returns
the boolean `True` (success), not the count. -/
def delete_user_todos (db : TodoDatabase) (user_id : Nat) :
    TodoDatabase × Bool :=
  let user_todos := db.todos.filter (fun t => t.user_id == user_id)
  let final_db := user_todos.foldl (fun d t => dbDelete d t.id) db
  (final_db, true)

/-- Numeric value of a Python `bool` (`True == 1`, `False == 0`), used to
compare the boolean actually returned by the code against a count the
specification expects. -/
def pyInt (b : Bool) : Nat := if b then 1 else 0

/-- Outcome of the POST /todos/new route handler in src/routes/todos.py. -/
inductive RouteResult where
  | validationError (msg : PyStr)
  | redirectSuccess
  | formError (msg : PyStr)
deriving Repr, DecidableEq

/-- The POST /todos/new handler (`create_todo` route in
src/routes/todos.py): trims the form fields, rejects an empty trimmed
title with "Title is required" before touching the store, converts an
empty due-date form value to absence, and otherwise calls the store's
`create_todo` with the authenticated user's id. -/
def route_create_todo (db : TodoDatabase) (now : Nat) (uid : Nat)
    (title_form description_form priority_form due_date_form : PyStr) :
    TodoDatabase × RouteResult :=
  let title := pyStrip title_form
  let description := pyStrip description_form
  let priority := priority_form
  let due_date := if due_date_form.isEmpty then none else some due_date_form
  if title.isEmpty then (db, RouteResult.validationError "Title is required".toList)
  else
    match create_todo db now uid title description priority due_date with
    | (db2, some _) => (db2, RouteResult.redirectSuccess)
    | (db2, none) => (db2, RouteResult.formError "Failed to create todo".toList)

-- Concrete fixtures used by witnesses and counterexamples.

/-- A pending todo owned by user 1. -/
def exTodo1 : Todo :=
  { id := 1, user_id := 1, title := "Buy milk".toList, description := []
    completed := false, priority := "medium".toList, due_date := none
    created_at := 3, updated_at := 3 }

/-- A completed todo owned by user 2. -/
def exTodo2 : Todo :=
  { id := 2, user_id := 2, title := "Ship release".toList, description := []
    completed := true, priority := "high".toList, due_date := none
    created_at := 4, updated_at := 4 }

/-- A store holding one todo of user 1 and one of user 2. -/
def exDb1 : TodoDatabase := { todos := [exTodo1, exTodo2], nextId := 3 }

/-- The empty store. -/
def dbEmpty : TodoDatabase := { todos := [], nextId := 1 }

/-- A store reached by two creations for user 1, the first at time 10 and
the second at time 20. -/
def exDb2 : TodoDatabase :=
  (create_todo (create_todo dbEmpty 10 1 "First".toList [] "medium".toList none).1
    20 1 "Second".toList [] "medium".toList none).1

/-- A second todo of user 1, for the bulk-delete counterexample. -/
def exTodo3 : Todo :=
  { id := 5, user_id := 1, title := "Pay rent".toList, description := []
    completed := true, priority := "low".toList, due_date := none
    created_at := 6, updated_at := 6 }

/-- A store holding two todos, both owned by user 1. -/
def exDb3 : TodoDatabase := { todos := [exTodo1, exTodo3], nextId := 6 }

-- Helper lemmas about the primary-key operations.

/-- Lem: a successful primary-key lookup returns a row with that key. -/
theorem dbGet_some_id {db : TodoDatabase} {tid : Nat} {td : Todo}
    (h : dbGet db tid = some td) : td.id = tid := by
  have h2 := List.find?_some h
  simpa using h2

/-- Lem: replacing the row that a `find?` by key located makes the same
lookup return the replacement, provided it carries the same key. -/
theorem find?_update_list (l : List Todo) (tid : Nat) (cur newT : Todo)
    (h : l.find? (fun x => x.id == tid) = some cur) (hid : newT.id = tid) :
    (l.map (fun x => if x.id == newT.id then newT else x)).find?
      (fun x => x.id == tid) = some newT := by
  induction l with
  | nil => simp at h
  | cons a rest ih =>
    by_cases ha : a.id = tid
    · simp only [List.map_cons]
      rw [if_pos (by simp [ha, hid])]
      rw [List.find?_cons_of_pos _ (by simp [hid])]
    · simp only [List.map_cons]
      rw [if_neg (by simp [hid, ha])]
      rw [List.find?_cons_of_neg _ (by simp [ha])]
      rw [List.find?_cons_of_neg _ (by simp [ha])] at h
      exact ih h

/-- Lem: `dbGet` after `dbUpdate` with a row of the looked-up key. -/
theorem dbGet_dbUpdate {db : TodoDatabase} {tid : Nat} {cur newT : Todo}
    (h : dbGet db tid = some cur) (hid : newT.id = tid) :
    dbGet (dbUpdate db newT) tid = some newT := by
  unfold dbGet at h ⊢
  unfold dbUpdate
  exact find?_update_list _ _ _ _ h hid

/-- Lem: characterisation of the secure single-row read: it succeeds
exactly on rows that exist and are owned by the requesting user. -/
theorem get_todo_by_id_eq_some {db : TodoDatabase} {tid u : Nat} {td : Todo} :
    get_todo_by_id db tid u = some td ↔ dbGet db tid = some td ∧ td.user_id = u := by
  unfold get_todo_by_id
  cases hd : dbGet db tid with
  | none => simp
  | some x =>
    dsimp only
    by_cases hx : x.user_id = u
    · rw [if_pos (by simpa using hx)]
      constructor
      · intro he
        injection he with he
        subst he
        exact ⟨rfl, hx⟩
      · rintro ⟨he1, he2⟩
        exact he1
    · rw [if_neg (by simpa using hx)]
      constructor
      · intro he
        cases he
      · rintro ⟨he1, he2⟩
        injection he1 with he1
        subst he1
        exact absurd he2 hx

/-- Lem: the unchecked update on an existing row writes the merged row. -/
theorem update_todo_eq {db : TodoDatabase} {now tid u : Nat}
    {ti d : Option PyStr} {c : Option Bool} {p dd : Option PyStr} {cur : Todo}
    (h : dbGet db tid = some cur) :
    update_todo db now tid u ti d c p dd =
      (dbUpdate db (mkUpdated cur now tid ti d c p dd), true) := by
  unfold update_todo
  rw [h]

/-- Lem: the row visible after an unchecked update of an existing key. -/
theorem dbGet_update_todo {db : TodoDatabase} {now tid u : Nat}
    {ti d : Option PyStr} {c : Option Bool} {p dd : Option PyStr} {cur : Todo}
    (h : dbGet db tid = some cur) :
    dbGet (update_todo db now tid u ti d c p dd).1 tid =
      some (mkUpdated cur now tid ti d c p dd) := by
  rw [update_todo_eq h]
  exact dbGet_dbUpdate h rfl

/-- Lem: the secure update on an owned row behaves as the unchecked one. -/
theorem update_todo_secure_owner {db : TodoDatabase} {now tid u : Nat}
    {ti d : Option PyStr} {c : Option Bool} {p dd : Option PyStr} {cur : Todo}
    (h : dbGet db tid = some cur) (hu : cur.user_id = u) :
    update_todo_secure db now tid u ti d c p dd =
      (dbUpdate db (mkUpdated cur now tid ti d c p dd), true) := by
  unfold update_todo_secure
  rw [show get_todo_by_id db tid u = some cur from get_todo_by_id_eq_some.mpr ⟨h, hu⟩]
  exact update_todo_eq h

/-- Lem: toggling an owned row writes back the row with `completed`
negated and `updated_at` refreshed, leaving the other fields alone. -/
theorem toggle_todo_completion_eq {db : TodoDatabase} {now tid u : Nat} {cur : Todo}
    (h : dbGet db tid = some cur) (hu : cur.user_id = u) :
    toggle_todo_completion db now tid u =
      (dbUpdate db (mkUpdated cur now tid none none (some (!cur.completed)) none none), true) := by
  unfold toggle_todo_completion
  rw [show get_todo_by_id db tid u = some cur from get_todo_by_id_eq_some.mpr ⟨h, hu⟩]
  exact update_todo_secure_owner h hu

-- Helper lemmas about the user-scoped list query.

/-- Lem: the unfiltered user query is a plain ownership filter. -/
theorem get_todos_by_user_none (db : TodoDatabase) (u : Nat) :
    get_todos_by_user db u none = db.todos.filter (fun t => t.user_id == u) := by
  unfold get_todos_by_user
  rw [List.filter_filter]
  simp [Bool.and_self]

/-- Lem: the completion-filtered user query is the ownership filter
further restricted to the requested completion state. -/
theorem get_todos_by_user_some (db : TodoDatabase) (u : Nat) (c : Bool) :
    get_todos_by_user db u (some c) =
      (db.todos.filter (fun t => t.user_id == u)).filter (fun t => t.completed == c) := by
  unfold get_todos_by_user
  rw [List.filter_filter, List.filter_filter]
  have hb : ∀ x y : Bool, (x && (x && y)) = (y && x) := by decide
  simp only [hb]

-- Helper lemmas about the bulk delete.

/-- Lem: folding single-row deletions over a list of rows filters out
every key occurring in that list. -/
theorem foldl_dbDelete_todos (ts : List Todo) (db : TodoDatabase) :
    (ts.foldl (fun d t => dbDelete d t.id) db).todos =
      db.todos.filter (fun x => ts.all (fun t => x.id != t.id)) := by
  induction ts generalizing db with
  | nil => simp
  | cons t ts ih =>
    rw [List.foldl_cons, ih]
    show (dbDelete db t.id).todos.filter _ = _
    unfold dbDelete
    rw [List.filter_filter]
    congr 1
    funext x
    rw [List.all_cons]
    exact Bool.and_comm _ _

/-- Lem: the fold of deletions never touches the key counter. -/
theorem foldl_dbDelete_nextId (ts : List Todo) (db : TodoDatabase) :
    (ts.foldl (fun d t => dbDelete d t.id) db).nextId = db.nextId := by
  induction ts generalizing db with
  | nil => rfl
  | cons t ts ih =>
    rw [List.foldl_cons, ih]
    rfl

/-- Lem: on a store with distinct primary keys, the bulk delete removes
exactly the rows owned by the given user. -/
theorem delete_user_todos_removes (db : TodoDatabase) (u : Nat)
    (h : (db.todos.map (fun t => t.id)).Nodup) :
    (delete_user_todos db u).1.todos = db.todos.filter (fun t => !(t.user_id == u)) := by
  unfold delete_user_todos
  dsimp only
  rw [foldl_dbDelete_todos]
  apply List.filter_congr
  intro x hx
  cases hxu : (x.user_id == u) with
  | true =>
    have hmem : x ∈ db.todos.filter (fun t => t.user_id == u) :=
      List.mem_filter.mpr ⟨hx, hxu⟩
    have hall : (db.todos.filter (fun t => t.user_id == u)).all
        (fun t => x.id != t.id) = false := by
      rw [List.all_eq_false]
      exact ⟨x, hmem, by simp⟩
    rw [hall]
    rfl
  | false =>
    have hall : (db.todos.filter (fun t => t.user_id == u)).all
        (fun t => x.id != t.id) = true := by
      rw [List.all_eq_true]
      intro t ht
      have htmem := List.mem_filter.mp ht
      by_contra hne
      have hid : x.id = t.id := by simpa using hne
      have hxt : x = t := List.inj_on_of_nodup_map h hx htmem.1 hid
      rw [hxt, htmem.2] at hxu
      cases hxu
    rw [hall]
    rfl

/-- Lem: the bulk delete for an owner with no rows is the identity. -/
theorem delete_user_todos_empty (db : TodoDatabase) (u : Nat)
    (h0 : ∀ t ∈ db.todos, t.user_id ≠ u) :
    delete_user_todos db u = (db, true) := by
  unfold delete_user_todos
  dsimp only
  rw [List.filter_eq_nil_iff.mpr (by intro a ha; simpa using h0 a ha)]
  rfl

-- Claim theorems.

/-- Claim C1: the user-scoped reads never expose another user's record:
`get_todo_by_id` returns a todo exactly when it exists and is owned by
the requesting user (absence otherwise), and every todo returned by
`get_todos_by_user` has the requesting user's id, for every store state,
todo id, user id and completion filter. -/
theorem C1_user_scoped_reads (db : TodoDatabase) (t u : Nat) (c : Option Bool) :
    (∀ td : Todo, get_todo_by_id db t u = some td ↔ dbGet db t = some td ∧ td.user_id = u) ∧
    (get_todos_by_user db u c).all (fun td => td.user_id == u) = true := by
  constructor
  · intro td
    exact get_todo_by_id_eq_some
  · rw [List.all_eq_true]
    intro td htd
    unfold get_todos_by_user at htd
    dsimp only at htd
    exact @List.of_mem_filter _ (fun t => t.user_id == u) td _ htd

/-- Claim C2: when the requested todo does not exist or is owned by a
different user, `update_todo_secure` returns failure and the store —
hence every field of every todo, `updated_at` included — is unchanged. -/
theorem C2_secure_update_blocks (db : TodoDatabase) (now t u : Nat)
    (ti d : Option PyStr) (c : Option Bool) (p dd : Option PyStr)
    (h : ∀ td : Todo, dbGet db t = some td → td.user_id ≠ u) :
    update_todo_secure db now t u ti d c p dd = (db, false) := by
  have hg : get_todo_by_id db t u = none := by
    unfold get_todo_by_id
    cases hd : dbGet db t with
    | none => rfl
    | some td =>
      dsimp only
      rw [if_neg (by simpa using h td hd)]
  unfold update_todo_secure
  rw [hg]

/-- Claim C2 witness: user 2 cannot update user 1's todo; the store is
returned untouched together with failure. -/
theorem C2_witness :
    update_todo_secure exDb1 9 1 2 none none none none none = (exDb1, false) :=
  C2_secure_update_blocks exDb1 9 1 2 none none none none none (by
    intro td hd
    rw [show dbGet exDb1 1 = some exTodo1 by decide] at hd
    injection hd with hd
    rw [← hd]
    decide)

/-- Claim C3 counterexample: the store-level `create_todo` called with a
title that is blank after stripping does not fail: it returns the created
todo (with empty title) and inserts one record. -/
theorem C3_counterexample :
    pyStrip " ".toList = [] ∧
    (create_todo dbEmpty 5 1 " ".toList [] "medium".toList none).2 =
      some { id := 1, user_id := 1, title := [], description := []
             completed := false, priority := "medium".toList, due_date := none
             created_at := 5, updated_at := 5 } ∧
    (create_todo dbEmpty 5 1 " ".toList [] "medium".toList none).1.todos.length = 1 := by
  decide

/-- Claim C3 (amended): the empty-after-strip title check lives in the
POST /todos/new route handler, not in the store: the handler rejects such
a title with the "Title is required" validation error and leaves the
store unchanged, so no record is created through the route. -/
theorem C3_route_rejects_blank_title (db : TodoDatabase) (now uid : Nat)
    (title descr prio ddf : PyStr) (h : (pyStrip title).isEmpty = true) :
    route_create_todo db now uid title descr prio ddf =
      (db, RouteResult.validationError "Title is required".toList) := by
  unfold route_create_todo
  dsimp only
  rw [if_pos h]

/-- Claim C3 witness: a whitespace-only form title is rejected by the
route handler and the store is unchanged. -/
theorem C3_witness :
    route_create_todo exDb1 9 1 "  ".toList "x".toList "medium".toList [] =
      (exDb1, RouteResult.validationError "Title is required".toList) :=
  C3_route_rejects_blank_title exDb1 9 1 "  ".toList "x".toList "medium".toList []
    (by decide)

/-- Claim C4 counterexample: in the store reached by creating a todo for
user 1 at time 10 and another at time 20, `get_todos_by_user` returns the
todos with `created_at` values `[10, 20]`, which is not ordered by
`created_at` descending. -/
theorem C4_counterexample :
    (get_todos_by_user exDb2 1 none).map (fun t => t.created_at) = [10, 20] ∧
    ¬ (get_todos_by_user exDb2 1 none).Pairwise
        (fun a b => b.created_at ≤ a.created_at) := by
  constructor
  · decide
  · decide

/-- Claim C4 (amended): `get_todos_by_user` performs no ordering of its
own: it returns a subsequence of the store's rows in storage (insertion)
order, so when the stored rows have nondecreasing `created_at` — as
successive creations produce — the result is ascending by `created_at`,
not descending. -/
theorem C4_storage_order (db : TodoDatabase) (u : Nat) (c : Option Bool)
    (h : db.todos.Pairwise (fun a b => a.created_at ≤ b.created_at)) :
    (get_todos_by_user db u c).Sublist db.todos ∧
    (get_todos_by_user db u c).Pairwise (fun a b => a.created_at ≤ b.created_at) := by
  have hsub : (get_todos_by_user db u c).Sublist db.todos := by
    unfold get_todos_by_user
    cases c with
    | none => exact (List.filter_sublist _).trans (List.filter_sublist _)
    | some cc => exact (List.filter_sublist _).trans (List.filter_sublist _)
  exact ⟨hsub, h.sublist hsub⟩

/-- Claim C4 witness: on the concrete two-row store the user query is a
subsequence of the stored rows and keeps their ascending timestamps. -/
theorem C4_witness :
    (get_todos_by_user exDb1 1 none).Sublist exDb1.todos ∧
    (get_todos_by_user exDb1 1 none).Pairwise
      (fun a b => a.created_at ≤ b.created_at) :=
  C4_storage_order exDb1 1 none (by decide)

/-- Claim C5: a successful `update_todo` on an existing todo changes
exactly the supplied fields, keeps omitted fields, preserves `user_id`
and `created_at`, and sets `updated_at` to the current time, which is at
least `created_at` whenever the clock has not gone backwards since
creation. -/
theorem C5_update_frame (db : TodoDatabase) (now t u : Nat)
    (ti d : Option PyStr) (c : Option Bool) (p dd : Option PyStr)
    (cur : Todo) (h : dbGet db t = some cur) (hnow : cur.created_at ≤ now) :
    (update_todo db now t u ti d c p dd).2 = true ∧
    ∃ upd : Todo,
      dbGet (update_todo db now t u ti d c p dd).1 t = some upd ∧
      upd.title = ti.getD cur.title ∧
      upd.description = d.getD cur.description ∧
      upd.completed = c.getD cur.completed ∧
      upd.priority = p.getD cur.priority ∧
      upd.due_date = (match dd with | some x => some x | none => cur.due_date) ∧
      upd.user_id = cur.user_id ∧
      upd.created_at = cur.created_at ∧
      upd.updated_at = now ∧
      upd.created_at ≤ upd.updated_at := by
  refine ⟨by rw [update_todo_eq h], mkUpdated cur now t ti d c p dd,
    dbGet_update_todo h, rfl, rfl, rfl, rfl, rfl, rfl, rfl, rfl, hnow⟩

/-- Claim C5 witness: updating only the title of the concrete stored todo
succeeds. -/
theorem C5_witness :
    (update_todo exDb1 9 1 1 (some "New title".toList) none none none none).2 = true :=
  (C5_update_frame exDb1 9 1 1 (some "New title".toList) none none none none exTodo1
    (by decide) (by decide)).1

/-- Claim C6: toggling an owned todo flips `completed` between its two
states, and toggling twice returns `completed` to its original value. -/
theorem C6_toggle_involution (db : TodoDatabase) (now1 now2 t u : Nat)
    (td : Todo) (h : dbGet db t = some td) (hu : td.user_id = u) :
    (toggle_todo_completion db now1 t u).2 = true ∧
    ∃ td1 : Todo,
      dbGet (toggle_todo_completion db now1 t u).1 t = some td1 ∧
      td1.completed = !td.completed ∧
      (toggle_todo_completion (toggle_todo_completion db now1 t u).1 now2 t u).2 = true ∧
      ∃ td2 : Todo,
        dbGet (toggle_todo_completion (toggle_todo_completion db now1 t u).1 now2 t u).1 t
          = some td2 ∧
        td2.completed = td.completed := by
  have h1 := @toggle_todo_completion_eq db now1 t u td h hu
  set td1 := mkUpdated td now1 t none none (some (!td.completed)) none none with htd1
  have hg1 : dbGet (toggle_todo_completion db now1 t u).1 t = some td1 := by
    rw [h1]
    exact dbGet_dbUpdate h rfl
  have h2 := @toggle_todo_completion_eq _ now2 t u td1 hg1 (show td1.user_id = u from hu)
  have hg2 : dbGet (toggle_todo_completion (toggle_todo_completion db now1 t u).1 now2 t u).1 t
      = some (mkUpdated td1 now2 t none none (some (!td1.completed)) none none) := by
    rw [h2]
    exact dbGet_dbUpdate hg1 rfl
  refine ⟨by rw [h1], td1, hg1, rfl, by rw [h2],
    mkUpdated td1 now2 t none none (some (!td1.completed)) none none, hg2, ?_⟩
  show (!(!td.completed)) = td.completed
  exact Bool.not_not _

/-- Claim C6 witness: toggling the concrete stored todo succeeds. -/
theorem C6_witness : (toggle_todo_completion exDb1 9 1 1).2 = true :=
  (C6_toggle_involution exDb1 9 10 1 1 exTodo1 (by decide) (by decide)).1

/-- Claim C7: the per-user statistics report the number of todos owned by
the user as total, the completed ones among them as completed, pending as
their difference, and the completion rate as completed over total with
the zero-total case special-cased to 0. -/
theorem C7_user_stats (db : TodoDatabase) (u : Nat) :
    (get_user_stats db u).total = (db.todos.filter (fun t => t.user_id == u)).length ∧
    (get_user_stats db u).completed =
      ((db.todos.filter (fun t => t.user_id == u)).filter (fun t => t.completed)).length ∧
    (get_user_stats db u).pending =
      (get_user_stats db u).total - (get_user_stats db u).completed ∧
    (get_user_stats db u).completion_rate =
      (if (get_user_stats db u).total = 0 then 0
       else ((get_user_stats db u).completed : ℚ) / ((get_user_stats db u).total : ℚ)) := by
  unfold get_user_stats
  rw [get_todos_by_user_none]
  dsimp only
  refine ⟨rfl, List.countP_eq_length_filter _ _, rfl, ?_⟩
  by_cases h0 : (db.todos.filter (fun t => t.user_id == u)).length = 0
  · rw [if_pos h0, if_neg (by rw [h0]; exact lt_irrefl 0)]
  · rw [if_neg h0, if_pos (Nat.pos_of_ne_zero h0)]

/-- Claim C8 counterexample: `delete_user_todos` returns the boolean
`True` — numerically 1 in Python — rather than the count of deleted
todos: for an owner with no todos the claim demands 0 but the call yields
`True` (1 ≠ 0), and on a store where it deletes two todos it still yields
`True` (1 ≠ 2). -/
theorem C8_counterexample :
    (delete_user_todos dbEmpty 7).2 = true ∧
    pyInt (delete_user_todos dbEmpty 7).2 ≠ 0 ∧
    (delete_user_todos exDb3 1).1.todos.length = 0 ∧
    pyInt (delete_user_todos exDb3 1).2 ≠ 2 := by
  decide

/-- Claim C8 (amended): on a store with distinct primary keys,
`delete_user_todos` removes exactly the todos owned by the given user and
returns the boolean `True` (a success flag, not the deletion count); for
an owner with no todos it does not error and leaves the store entirely
unchanged, so the operation is idempotent. -/
theorem C8_delete_user_todos_removes_all (db : TodoDatabase) (u : Nat)
    (h : (db.todos.map (fun t => t.id)).Nodup) :
    (delete_user_todos db u).2 = true ∧
    (delete_user_todos db u).1.todos = db.todos.filter (fun t => !(t.user_id == u)) ∧
    ((∀ t ∈ db.todos, t.user_id ≠ u) → (delete_user_todos db u).1 = db) := by
  refine ⟨rfl, delete_user_todos_removes db u h, ?_⟩
  intro h0
  rw [delete_user_todos_empty db u h0]

/-- Claim C8 witness: on the concrete store the bulk delete for user 1
removes exactly user 1's todos. -/
theorem C8_witness :
    (delete_user_todos exDb1 1).1.todos =
      exDb1.todos.filter (fun t => !(t.user_id == 1)) :=
  (C8_delete_user_todos_removes_all exDb1 1 (by decide)).2.1

/-- Claim C9: for every owner the completed-filtered and pending-filtered
queries partition the unfiltered query: their union is the unfiltered
result as sets, without duplication or omission (stated as a permutation
of the concatenation). -/
theorem C9_filter_partition (db : TodoDatabase) (u : Nat) :
    List.Perm (get_todos_by_user db u (some true) ++ get_todos_by_user db u (some false))
      (get_todos_by_user db u none) := by
  rw [get_todos_by_user_some, get_todos_by_user_some, get_todos_by_user_none]
  have h1 : ∀ b : Bool, (b == true) = b := by decide
  have h2 : ∀ b : Bool, (b == false) = !b := by decide
  simp only [h1, h2]
  exact List.filter_append_perm _ _

/-- Claim C10: the base `update_todo` enforces no ownership: for any
existing todo and any requesting user — owner or not — it applies the
requested changes and returns success; ownership is enforced only by the
`update_todo_secure` wrapper, which returns failure and leaves the store
unchanged when the requester is not the owner. -/
theorem C10_update_ignores_ownership (db : TodoDatabase) (now t u : Nat)
    (ti d : Option PyStr) (c : Option Bool) (p dd : Option PyStr)
    (cur : Todo) (h : dbGet db t = some cur) :
    (update_todo db now t u ti d c p dd).2 = true ∧
    dbGet (update_todo db now t u ti d c p dd).1 t =
      some (mkUpdated cur now t ti d c p dd) ∧
    (cur.user_id ≠ u → update_todo_secure db now t u ti d c p dd = (db, false)) := by
  refine ⟨by rw [update_todo_eq h], dbGet_update_todo h, ?_⟩
  intro hne
  have hg : get_todo_by_id db t u = none := by
    unfold get_todo_by_id
    rw [h]
    dsimp only
    rw [if_neg (by simpa using hne)]
  unfold update_todo_secure
  rw [hg]

/-- Claim C10 witness: user 2 can change user 1's todo through the base
update, while the secure wrapper blocks the same request. -/
theorem C10_witness :
    (update_todo exDb1 9 1 2 (some "Hijacked".toList) none none none none).2 = true ∧
    update_todo_secure exDb1 9 1 2 (some "Hijacked".toList) none none none none
      = (exDb1, false) := by
  refine ⟨(C10_update_ignores_ownership exDb1 9 1 2 (some "Hijacked".toList) none none none
    none exTodo1 (by decide)).1,
    (C10_update_ignores_ownership exDb1 9 1 2 (some "Hijacked".toList) none none none
    none exTodo1 (by decide)).2.2 (by decide)⟩
